import Mathlib

/-
  Formal model of the Azure Capacity Validator tool.

  The repository is a FastAPI backend plus a React frontend.  The frontend
  sources are present (App.tsx, PlanEditor, GenericSkuSelector, VMSizeSelector,
  ValidationResults) and are embedded here from the source.  The backend
  (plan validation, quota projection, AI plan drafting) is not present in the
  sources; those parts are modelled from the specification, and every such
  definition is marked accordingly in its doc comment.
-/

namespace ACV

/-- Status enumeration of a validation outcome, the fixed four-value
enumeration from the data model: available, restricted, unknown, error. -/
inductive Status where
  | available
  | restricted
  | unknown
  | error
deriving DecidableEq, Repr

/-- PlanResource from the frontend type (PlanEditor.tsx): resource_type,
optional sku, optional quantity, open feature map.  Quantity is a JS number
set from user input, so it is modelled as an integer that may be 0. -/
structure PlanResource where
  resource_type : String
  sku : Option String := none
  quantity : Option Int := none
  features : List (String × String) := []
deriving DecidableEq, Repr

/-- Plan from the frontend: region, optional subscription, ordered resources. -/
structure Plan where
  region : String
  subscription_id : Option String := none
  resources : List PlanResource
deriving DecidableEq, Repr

/-- ValidationOutcome: the per-resource result of validation. -/
structure ValidationOutcome where
  resource : PlanResource
  status : Status
  details : Option String := none
deriving DecidableEq, Repr

/-- A resource SKU entry as returned by the provider capability listing:
a name plus a list of restriction reasons (empty when unrestricted). -/
structure SkuEntry where
  name : String
  restrictions : List String
deriving DecidableEq, Repr

/-- A lookup environment: for a region and a resource type, the SKU listing
call either fails with a transport failure message or returns the entries. -/
def LookupEnv : Type := String → String → Except String (List SkuEntry)

/-- Modelled from the spec: the backend per-entry classification (section 4.1,
backend code absent from the sources).  The validator determines whether the
requested SKU appears with no restriction flags (available), appears with a
restriction flag (restricted, with the restriction reason as details), does
not appear (unknown), or the lookup itself failed (error, with the transport
failure surfaced as details). -/
def classify (r : PlanResource) (lk : Except String (List SkuEntry)) :
    ValidationOutcome :=
  match lk with
  | Except.error e => { resource := r, status := Status.error, details := some e }
  | Except.ok entries =>
    match entries.find? (fun en => r.sku == some en.name) with
    | none => { resource := r, status := Status.unknown, details := none }
    | some en =>
      if en.restrictions.isEmpty then
        { resource := r, status := Status.available, details := none }
      else
        { resource := r, status := Status.restricted,
          details := some (String.intercalate "; " en.restrictions) }

/-- Modelled from the spec: the validate operation (section 4.1, backend code
absent from the sources).  Given a Plan it produces one ValidationOutcome per
PlanResource, preserving input order; each per-resource lookup targets the
plan region and that resource type. -/
def validatePlan (env : LookupEnv) (p : Plan) : List ValidationOutcome :=
  p.resources.map (fun r => classify r (env p.region r.resource_type))

/-- A fetched usage pair for one quota family: current usage and limit. -/
structure UsagePair where
  name : String
  current : ℚ
  limit : ℚ
deriving DecidableEq, Repr

/-- QuotaLine from the data model: the projected figures for one family. -/
structure QuotaLine where
  name : String
  current : ℚ
  limit : ℚ
  remaining : ℚ
  requested_additional : ℚ
  remaining_after_request : ℚ
  percent_used : ℚ
  percent_used_after_request : ℚ
deriving DecidableEq, Repr

/-- Modelled from the spec: the quota projection for one family (section 4.2,
backend code absent from the sources): remaining = limit minus current,
remaining_after_request = remaining minus requested_additional, percent_used =
current over limit, percent_used_after_request = (current plus
requested_additional) over limit.  The requested map gives the aggregate
additional cores per family name. -/
def quotaLineOf (requested : String → ℚ) (u : UsagePair) : QuotaLine :=
  { name := u.name
    current := u.current
    limit := u.limit
    remaining := u.limit - u.current
    requested_additional := requested u.name
    remaining_after_request := u.limit - u.current - requested u.name
    percent_used := u.current / u.limit
    percent_used_after_request := (u.current + requested u.name) / u.limit }

/-- Modelled from the spec: the Quota Projector over all fetched families. -/
def projectQuota (requested : String → ℚ) (usages : List UsagePair) :
    List QuotaLine :=
  usages.map (quotaLineOf requested)

/-- Result of the Quota Projector: either a summary or an explicit
unavailable status. -/
inductive QuotaProjection where
  | summary (lines : List QuotaLine)
  | unavailable
deriving DecidableEq, Repr

/-- Modelled from the spec: if quota data is unavailable (permission or
transient failure) the projector returns an explicit unavailable status
rather than fabricating numbers (section 4.2, backend code absent). -/
def projectQuotaResult (requested : String → ℚ)
    (fetch : Except String (List UsagePair)) : QuotaProjection :=
  match fetch with
  | Except.error _ => QuotaProjection.unavailable
  | Except.ok usages => QuotaProjection.summary (projectQuota requested usages)

/-- A quota row as consumed by the frontend table (ValidationResults.tsx):
the two percentage fields may be absent in the JSON payload; they are percent
values on the 0..100 scale (the table renders them with a percent sign). -/
structure QuotaDisplayRow where
  name : String
  percent_used : Option ℚ := none
  percent_used_after_request : Option ℚ := none
deriving DecidableEq, Repr

/-- The warning flag computed in ValidationResults.tsx for one quota row:
warn = (postPct if present else pct) is present and (postPct if present else
pct) is at least 80.  The flag only selects a background style for the row. -/
def quotaRowWarn (q : QuotaDisplayRow) : Bool :=
  match q.percent_used_after_request, q.percent_used with
  | some post, _ => decide (80 ≤ post)
  | none, some pct => decide (80 ≤ pct)
  | none, none => false

/-- Hosted-model configuration (endpoint and deployment, read from env vars;
either may be absent). -/
structure AiConfig where
  endpoint : Option String := none
  deployment : Option String := none
deriving DecidableEq, Repr

/-- Draft failure kinds of the Plan Drafter. -/
inductive DraftError where
  | configurationMissing
  | parseFailed (msg : String)
deriving DecidableEq, Repr

/-- Modelled from the spec: the Plan Drafter (section 4.3 and the README,
backend code absent from the sources).  If the hosted model is not configured
(missing endpoint or deployment) it signals unavailable without attempting a
model call; otherwise it calls the model and parses the output, surfacing a
parse failure as an error with no retry.  The callModel argument stands for
the hosted text-generation call and parseOut for the JSON parsing of its
output. -/
def draftPlan (cfg : AiConfig) (callModel : String → String)
    (parseOut : String → Option Plan) (prompt : String) :
    Except DraftError Plan :=
  match cfg.endpoint, cfg.deployment with
  | some _, some _ =>
    match parseOut (callModel prompt) with
    | some p => Except.ok p
    | none => Except.error (DraftError.parseFailed "model output did not parse as a plan")
  | _, _ => Except.error DraftError.configurationMissing

/-- Modelled from the spec: the HTTP status the backend attaches to a draft
result; the README states the endpoint returns 503 when the AI env vars are
absent so the UI can hide the feature. -/
def draftHttpStatus : Except DraftError Plan → Nat
  | Except.error DraftError.configurationMissing => 503
  | Except.error (DraftError.parseFailed _) => 500
  | Except.ok _ => 200

/-- The JSON response of the /api/ai/plan call as seen by the frontend:
ok mirrors res.ok, status the HTTP status, detail an optional error detail,
resources the optional drafted resource list. -/
structure AiResponse where
  ok : Bool
  status : Nat
  detail : Option String := none
  resources : Option (List PlanResource) := none
deriving DecidableEq, Repr

/-- The frontend state touched by runAI in App.tsx. -/
structure AppState where
  region : String
  plan : Plan
  aiError : Option String := none
deriving DecidableEq, Repr

/-- The runAI state transition from App.tsx: aiError is cleared, then if the
response is not ok an error message is set and the plan is left untouched
(early return); otherwise the plan is replaced by a fresh plan of the current
region and the drafted resources (data.resources or empty). -/
def runAI (st : AppState) (resp : AiResponse) : AppState :=
  if resp.ok then
    { st with
      aiError := none,
      plan := { region := st.region, subscription_id := none,
                resources := resp.resources.getD [] } }
  else
    { st with
      aiError := some ("AI analysis failed: "
        ++ resp.detail.getD ("HTTP " ++ toString resp.status)
        ++ ". Configure Azure OpenAI in backend env vars.") }

/-- A partial update of a PlanResource as passed to updateResource in
PlanEditor.tsx (a JS object spread: only present keys override). -/
structure ResourcePatch where
  resource_type : Option String := none
  sku : Option String := none
  quantity : Option Int := none
deriving DecidableEq, Repr

/-- The JS object spread of a patch over a resource: present patch keys
override the resource fields (the UI passes sku and quantity as plain
values, never as undefined). -/
def applyPatch (r : PlanResource) (patch : ResourcePatch) : PlanResource :=
  { resource_type :=
      match patch.resource_type with
      | none => r.resource_type
      | some t => t
    sku :=
      match patch.sku with
      | none => r.sku
      | some s => some s
    quantity :=
      match patch.quantity with
      | none => r.quantity
      | some q => some q
    features := r.features }

/-- addResource from PlanEditor.tsx: resolves the type (trimmed custom text
when the custom option is chosen), bails out when it is empty, and appends a
resource with quantity 1, an empty feature map and the new SKU (absent when
the SKU text is empty, matching the JS falsy coalescing). -/
def addResource (plan : Plan) (newType customType newSku : String) : Plan :=
  let typeToUse := if newType = "custom" then customType.trim else newType
  if typeToUse = "" then plan
  else
    { plan with
      resources := plan.resources ++
        [{ resource_type := typeToUse,
           sku := if newSku = "" then none else some newSku,
           quantity := some 1,
           features := [] }] }

/-- updateResource from PlanEditor.tsx: maps over the resources, merging the
patch into the resource at the given index and leaving the others as they
are.  No validation is applied to the patch. -/
def updateResource (plan : Plan) (idx : Nat) (patch : ResourcePatch) : Plan :=
  { plan with
    resources :=
      plan.resources.mapIdx (fun i r => if i = idx then applyPatch r patch else r) }

/-- removeResource from PlanEditor.tsx: filters out the resource at idx. -/
def removeResource (plan : Plan) (idx : Nat) : Plan :=
  { plan with
    resources :=
      (plan.resources.mapIdx (fun i r => (i, r))).filterMap
        (fun p => if p.1 = idx then none else some p.2) }

/-- The PlanResource invariant stated by the data model: resource_type is
required (non-empty) and quantity, when present, is at least 1. -/
def resourceInvariant (r : PlanResource) : Prop :=
  r.resource_type ≠ "" ∧ ∀ q, r.quantity = some q → 1 ≤ q

/-- Boolean form of the PlanResource invariant. -/
def resourceInvariantB (r : PlanResource) : Bool :=
  (!(r.resource_type == "")) &&
    (match r.quantity with
     | none => true
     | some q => decide (1 ≤ q))

/-- An item of the resource-SKU listing consumed by GenericSkuSelector. -/
structure SkuItem where
  name : String
  details : Option String := none
deriving DecidableEq, Repr

/-- A VM size entry consumed by VMSizeSelector. -/
structure VmSize where
  name : String
  number_of_cores : Int
  memory_in_mb : Int
deriving DecidableEq, Repr

/-- JS falsiness of the optional value prop of the selectors: undefined or
the empty string. -/
def optStrFalsy (v : Option String) : Bool :=
  match v with
  | none => true
  | some s => s == ""

/-- The fetch-response handler of GenericSkuSelector (GenericSkuSelector.tsx):
on success the item state becomes data.items or empty, and when no value is
chosen and the list is non-empty, onChange fires with the first item name
(returned as the second component); on failure the item state is reset to the
empty list and onChange does not fire. -/
def genericSkuOnFetch (value : Option String)
    (resp : Except Unit (Option (List SkuItem))) :
    List SkuItem × Option String :=
  match resp with
  | Except.error _ => ([], none)
  | Except.ok dataItems =>
    let list := dataItems.getD []
    (list,
      if optStrFalsy value then (list.head?).map (fun it => it.name) else none)

/-- The fetch-response handler of VMSizeSelector (VMSizeSelector.tsx): on
success the size state becomes the returned list, and when no value is chosen
and the list is non-empty, onChange fires with the first size name; on
failure the handler only logs, leaving the size state as it was. -/
def vmSizeOnFetch (value : Option String) (prevSizes : List VmSize)
    (resp : Except Unit (List VmSize)) : List VmSize × Option String :=
  match resp with
  | Except.error _ => (prevSizes, none)
  | Except.ok list =>
    (list,
      if optStrFalsy value then (list.head?).map (fun s => s.name) else none)

lemma classify_resource_eq (r : PlanResource) (lk : Except String (List SkuEntry)) :
    (classify r lk).resource = r := by
  cases lk with
  | error e => rfl
  | ok entries =>
    simp only [classify]
    cases entries.find? (fun en => r.sku == some en.name) with
    | none => rfl
    | some en =>
      by_cases h : en.restrictions.isEmpty <;> simp [h]

lemma validatePlan_getElem? (env : LookupEnv) (p : Plan) (i : Nat) :
    (validatePlan env p)[i]?
      = (p.resources[i]?).map (fun r => classify r (env p.region r.resource_type)) := by
  simp [validatePlan]

/-- C1: for every Plan with N resources, validatePlan returns exactly N
outcomes; the outcome at every index i is the classification of the resource
at index i, and its resource field is that input resource, so input order is
preserved. -/
theorem validate_count_and_order (env : LookupEnv) (p : Plan) :
    (validatePlan env p).length = p.resources.length ∧
    (∀ i : Nat, (validatePlan env p)[i]?
        = (p.resources[i]?).map (fun r => classify r (env p.region r.resource_type))) ∧
    (∀ i : Nat, ((validatePlan env p)[i]?).map (fun o => o.resource)
        = p.resources[i]?) := by
  refine ⟨by simp [validatePlan], fun i => validatePlan_getElem? env p i, fun i => ?_⟩
  rw [validatePlan_getElem?]
  cases h : p.resources[i]? with
  | none => simp
  | some r => simp [classify_resource_eq]

/-- C2: the per-entry classification is a total case split on the SKU lookup
result: a failed lookup yields status error with the failure as details; a
listing where no entry matches the requested sku yields status unknown; a
matching entry with no restriction flags yields status available; a matching
entry with restriction flags yields status restricted with non-empty
details. -/
theorem classify_case_split (r : PlanResource) (lk : Except String (List SkuEntry)) :
    (∀ e, lk = Except.error e →
      (classify r lk).status = Status.error ∧ (classify r lk).details = some e) ∧
    (∀ entries, lk = Except.ok entries →
      (entries.find? (fun en => r.sku == some en.name) = none →
        (classify r lk).status = Status.unknown) ∧
      (∀ en, entries.find? (fun en => r.sku == some en.name) = some en →
        (en.restrictions = [] → (classify r lk).status = Status.available) ∧
        (en.restrictions ≠ [] →
          (classify r lk).status = Status.restricted ∧
          (classify r lk).details ≠ none))) := by
  constructor
  · rintro e rfl
    exact ⟨rfl, rfl⟩
  · rintro entries rfl
    constructor
    · intro hnone
      simp [classify, hnone]
    · intro en hfind
      constructor
      · intro hempty
        simp [classify, hfind, hempty]
      · intro hne
        have hnotempty : en.restrictions.isEmpty = false := by
          cases hres : en.restrictions with
          | nil => exact absurd hres hne
          | cons a as => simp
        simp [classify, hfind, hnotempty]

/-- Witness for classify_case_split: each branch exercised at a concrete
lookup result. -/
theorem classify_case_split_witness :
    ((classify { resource_type := "Microsoft.Compute/disks", sku := some "Premium_LRS" }
        (Except.error "boom")).status = Status.error ∧
     (classify { resource_type := "Microsoft.Compute/disks", sku := some "Premium_LRS" }
        (Except.error "boom")).details = some "boom") ∧
    ((classify { resource_type := "Microsoft.Compute/disks", sku := some "Premium_LRS" }
        (Except.ok [])).status = Status.unknown) ∧
    ((classify { resource_type := "Microsoft.Compute/disks", sku := some "Premium_LRS" }
        (Except.ok [{ name := "Premium_LRS", restrictions := [] }])).status
        = Status.available) ∧
    ((classify { resource_type := "Microsoft.Compute/disks", sku := some "Premium_LRS" }
        (Except.ok [{ name := "Premium_LRS", restrictions := ["NotAvailableForSubscription"] }])).status
        = Status.restricted) := by
  refine ⟨(classify_case_split _ _).1 "boom" rfl, ?_, ?_, ?_⟩
  · exact ((classify_case_split _ (Except.ok [])).2 [] rfl).1 (by decide)
  · exact (((classify_case_split _ _).2 _ rfl).2
      { name := "Premium_LRS", restrictions := [] } (by decide)).1 rfl
  · exact ((((classify_case_split _ _).2 _ rfl).2
      { name := "Premium_LRS", restrictions := ["NotAvailableForSubscription"] }
      (by decide)).2 (by decide)).1

/-- C3: every line produced by the Quota Projector satisfies the four
projection equations: remaining = limit minus current,
remaining_after_request = remaining minus requested_additional, percent_used
= current over limit, percent_used_after_request = (current plus
requested_additional) over limit. -/
theorem quota_line_equations (requested : String → ℚ) (usages : List UsagePair)
    (q : QuotaLine) (hq : q ∈ projectQuota requested usages) :
    q.remaining = q.limit - q.current ∧
    q.remaining_after_request = q.remaining - q.requested_additional ∧
    q.percent_used = q.current / q.limit ∧
    q.percent_used_after_request
      = (q.current + q.requested_additional) / q.limit := by
  simp only [projectQuota, List.mem_map] at hq
  obtain ⟨u, hu, rfl⟩ := hq
  exact ⟨rfl, rfl, rfl, rfl⟩

/-- Witness for quota_line_equations at a concrete usage pair. -/
theorem quota_line_equations_witness :
    (quotaLineOf (fun _ => (8 : ℚ)) { name := "standardDSv5Family", current := 3, limit := 10 }).remaining
      = (quotaLineOf (fun _ => (8 : ℚ)) { name := "standardDSv5Family", current := 3, limit := 10 }).limit
        - (quotaLineOf (fun _ => (8 : ℚ)) { name := "standardDSv5Family", current := 3, limit := 10 }).current ∧
    (quotaLineOf (fun _ => (8 : ℚ)) { name := "standardDSv5Family", current := 3, limit := 10 }).remaining_after_request
      = (quotaLineOf (fun _ => (8 : ℚ)) { name := "standardDSv5Family", current := 3, limit := 10 }).remaining
        - (quotaLineOf (fun _ => (8 : ℚ)) { name := "standardDSv5Family", current := 3, limit := 10 }).requested_additional ∧
    (quotaLineOf (fun _ => (8 : ℚ)) { name := "standardDSv5Family", current := 3, limit := 10 }).percent_used
      = (quotaLineOf (fun _ => (8 : ℚ)) { name := "standardDSv5Family", current := 3, limit := 10 }).current
        / (quotaLineOf (fun _ => (8 : ℚ)) { name := "standardDSv5Family", current := 3, limit := 10 }).limit ∧
    (quotaLineOf (fun _ => (8 : ℚ)) { name := "standardDSv5Family", current := 3, limit := 10 }).percent_used_after_request
      = ((quotaLineOf (fun _ => (8 : ℚ)) { name := "standardDSv5Family", current := 3, limit := 10 }).current
          + (quotaLineOf (fun _ => (8 : ℚ)) { name := "standardDSv5Family", current := 3, limit := 10 }).requested_additional)
        / (quotaLineOf (fun _ => (8 : ℚ)) { name := "standardDSv5Family", current := 3, limit := 10 }).limit :=
  quota_line_equations (fun _ => (8 : ℚ))
    [{ name := "standardDSv5Family", current := 3, limit := 10 }] _
    (by simp [projectQuota])

/-- C5: quota projection is idempotent under a zero additional request: for
every projected line with requested_additional = 0, the after-request figures
equal the before-request figures. -/
theorem quota_zero_request_idempotent (requested : String → ℚ)
    (usages : List UsagePair) (q : QuotaLine)
    (hq : q ∈ projectQuota requested usages)
    (h0 : q.requested_additional = 0) :
    q.percent_used_after_request = q.percent_used ∧
    q.remaining_after_request = q.remaining := by
  simp only [projectQuota, List.mem_map] at hq
  obtain ⟨u, hu, rfl⟩ := hq
  simp only [quotaLineOf] at h0 ⊢
  rw [h0, add_zero, sub_zero]
  exact ⟨rfl, rfl⟩

/-- Witness for quota_zero_request_idempotent at a concrete usage pair. -/
theorem quota_zero_request_idempotent_witness :
    (quotaLineOf (fun _ => (0 : ℚ)) { name := "standardEv4Family", current := 5, limit := 20 }).percent_used_after_request
      = (quotaLineOf (fun _ => (0 : ℚ)) { name := "standardEv4Family", current := 5, limit := 20 }).percent_used ∧
    (quotaLineOf (fun _ => (0 : ℚ)) { name := "standardEv4Family", current := 5, limit := 20 }).remaining_after_request
      = (quotaLineOf (fun _ => (0 : ℚ)) { name := "standardEv4Family", current := 5, limit := 20 }).remaining :=
  quota_zero_request_idempotent (fun _ => (0 : ℚ))
    [{ name := "standardEv4Family", current := 5, limit := 20 }] _
    (by simp [projectQuota]) rfl

/-- C4: a quota row with a present percent_used_after_request is flagged for
warning exactly when that value is at least 80 on the percent scale shown by
the table, equivalently when the used fraction after the request is at least
0.8; the flag is a Boolean used only for row styling. -/
theorem quota_warn_iff_threshold (q : QuotaDisplayRow) (v : ℚ)
    (h : q.percent_used_after_request = some v) :
    (quotaRowWarn q = true ↔ 80 ≤ v) ∧
    (quotaRowWarn q = true ↔ (4 / 5 : ℚ) ≤ v / 100) := by
  have hw : quotaRowWarn q = decide (80 ≤ v) := by
    simp [quotaRowWarn, h]
  have harith : (80 ≤ v) ↔ ((4 / 5 : ℚ) ≤ v / 100) := by
    rw [le_div_iff₀ (by norm_num : (0 : ℚ) < 100)]
    norm_num
  rw [hw]
  constructor
  · exact decide_eq_true_iff
  · exact decide_eq_true_iff.trans harith

/-- Witness for quota_warn_iff_threshold: a row at 85 percent is flagged. -/
theorem quota_warn_iff_threshold_witness :
    quotaRowWarn { name := "standardDSv5Family",
                   percent_used := some 60,
                   percent_used_after_request := some 85 } = true :=
  ((quota_warn_iff_threshold
      { name := "standardDSv5Family",
        percent_used := some 60,
        percent_used_after_request := some 85 } 85 rfl).1).2 (by norm_num)

/-- C6: with no configured endpoint or deployment the drafter returns the
configuration-missing signal for every possible model function, hence without
the result depending on any model call, and its HTTP status is 503; a parse
failure of model output is surfaced as a parse error; and whenever the
frontend receives a non-ok response, runAI leaves the existing plan
unchanged, adding no resources. -/
theorem drafter_unconfigured_leaves_plan_unchanged :
    (∀ (cfg : AiConfig) (callModel : String → String)
        (parseOut : String → Option Plan) (prompt : String),
      cfg.endpoint = none ∨ cfg.deployment = none →
        draftPlan cfg callModel parseOut prompt
          = Except.error DraftError.configurationMissing ∧
        draftHttpStatus (draftPlan cfg callModel parseOut prompt) = 503) ∧
    (∀ (cfg : AiConfig) (e d : String) (callModel : String → String)
        (parseOut : String → Option Plan) (prompt : String),
      cfg.endpoint = some e → cfg.deployment = some d →
      parseOut (callModel prompt) = none →
        draftPlan cfg callModel parseOut prompt
          = Except.error (DraftError.parseFailed "model output did not parse as a plan")) ∧
    (∀ (st : AppState) (resp : AiResponse), resp.ok = false →
      (runAI st resp).plan = st.plan ∧
      (runAI st resp).plan.resources = st.plan.resources) := by
  refine ⟨?_, ?_, ?_⟩
  · rintro ⟨ep, dep⟩ callModel parseOut prompt h
    have hmiss : draftPlan ⟨ep, dep⟩ callModel parseOut prompt
        = Except.error DraftError.configurationMissing := by
      rcases h with h | h
      · cases h
        cases dep <;> rfl
      · cases h
        cases ep <;> rfl
    exact ⟨hmiss, by rw [hmiss]; rfl⟩
  · rintro ⟨ep, dep⟩ e d callModel parseOut prompt he hd hparse
    cases he
    cases hd
    simp [draftPlan, hparse]
  · intro st resp hok
    simp [runAI, hok]

/-- Witness for drafter_unconfigured_leaves_plan_unchanged: an empty config
yields the 503 configuration-missing signal, a parse failure on a configured
drafter yields a parse error, and a 503 response leaves a concrete one-entry
plan untouched. -/
theorem drafter_unconfigured_witness :
    (draftPlan { endpoint := none, deployment := none } (fun _ => "out")
        (fun _ => none) "three web VMs"
      = Except.error DraftError.configurationMissing ∧
     draftHttpStatus (draftPlan { endpoint := none, deployment := none }
        (fun _ => "out") (fun _ => none) "three web VMs") = 503) ∧
    (draftPlan { endpoint := some "https://aoai.example", deployment := some "gpt-4.1" }
        (fun _ => "not json") (fun _ => none) "three web VMs"
      = Except.error (DraftError.parseFailed "model output did not parse as a plan")) ∧
    ((runAI { region := "swedencentral",
              plan := { region := "swedencentral",
                        resources := [{ resource_type := "Microsoft.Compute/disks" }] } }
            { ok := false, status := 503, detail := some "AI not configured" }).plan
      = { region := "swedencentral",
          resources := [{ resource_type := "Microsoft.Compute/disks" }] }) :=
  ⟨drafter_unconfigured_leaves_plan_unchanged.1
      { endpoint := none, deployment := none } (fun _ => "out") (fun _ => none)
      "three web VMs" (Or.inl rfl),
   drafter_unconfigured_leaves_plan_unchanged.2.1
      { endpoint := some "https://aoai.example", deployment := some "gpt-4.1" }
      "https://aoai.example" "gpt-4.1" (fun _ => "not json") (fun _ => none)
      "three web VMs" rfl rfl rfl,
   (drafter_unconfigured_leaves_plan_unchanged.2.2
      { region := "swedencentral",
        plan := { region := "swedencentral",
                  resources := [{ resource_type := "Microsoft.Compute/disks" }] } }
      { ok := false, status := 503, detail := some "AI not configured" } rfl).1⟩

/-- C7: per-entry failure isolation: validation always returns an outcome for
every entry; a failed lookup for entry i yields an error outcome at index i;
and the outcome at index i depends only on the lookup for that entry, so a
failure or timeout of any other lookup never alters or aborts it. -/
theorem per_entry_failure_isolation (env env2 : LookupEnv) (p : Plan) :
    (validatePlan env p).length = p.resources.length ∧
    (∀ (i : Nat) (r : PlanResource), p.resources[i]? = some r →
      (∀ e, env p.region r.resource_type = Except.error e →
        (validatePlan env p)[i]? = some (classify r (Except.error e)) ∧
        (classify r (Except.error e)).status = Status.error) ∧
      (env p.region r.resource_type = env2 p.region r.resource_type →
        (validatePlan env p)[i]? = (validatePlan env2 p)[i]?)) := by
  refine ⟨by simp [validatePlan], fun i r hr => ⟨?_, ?_⟩⟩
  · intro e he
    rw [validatePlan_getElem?, hr]
    exact ⟨by simp [he], rfl⟩
  · intro hagree
    rw [validatePlan_getElem?, validatePlan_getElem?, hr]
    simp [hagree]

/-- Witness for per_entry_failure_isolation: a plan whose first lookup fails
but whose second succeeds gets an error outcome at index 0, while the outcome
at index 1 agrees with the one under an environment whose first lookup does
not fail. -/
theorem per_entry_failure_isolation_witness :
    ((validatePlan
        (fun _ rt => if rt = "Microsoft.Compute/virtualMachines"
          then Except.error "timeout" else Except.ok [])
        { region := "westeurope",
          resources := [{ resource_type := "Microsoft.Compute/virtualMachines" },
                        { resource_type := "Microsoft.Compute/disks" }] })[0]?
      = some (classify { resource_type := "Microsoft.Compute/virtualMachines" }
          (Except.error "timeout")) ∧
     (classify { resource_type := "Microsoft.Compute/virtualMachines" }
        (Except.error "timeout")).status = Status.error) ∧
    ((validatePlan
        (fun _ rt => if rt = "Microsoft.Compute/virtualMachines"
          then Except.error "timeout" else Except.ok [])
        { region := "westeurope",
          resources := [{ resource_type := "Microsoft.Compute/virtualMachines" },
                        { resource_type := "Microsoft.Compute/disks" }] })[1]?
      = (validatePlan (fun _ _ => Except.ok [])
        { region := "westeurope",
          resources := [{ resource_type := "Microsoft.Compute/virtualMachines" },
                        { resource_type := "Microsoft.Compute/disks" }] })[1]?) :=
  ⟨(per_entry_failure_isolation
      (fun _ rt => if rt = "Microsoft.Compute/virtualMachines"
        then Except.error "timeout" else Except.ok [])
      (fun _ _ => Except.ok [])
      { region := "westeurope",
        resources := [{ resource_type := "Microsoft.Compute/virtualMachines" },
                      { resource_type := "Microsoft.Compute/disks" }] }).2
      0 { resource_type := "Microsoft.Compute/virtualMachines" } rfl
    |>.1 "timeout" rfl,
   (per_entry_failure_isolation
      (fun _ rt => if rt = "Microsoft.Compute/virtualMachines"
        then Except.error "timeout" else Except.ok [])
      (fun _ _ => Except.ok [])
      { region := "westeurope",
        resources := [{ resource_type := "Microsoft.Compute/virtualMachines" },
                      { resource_type := "Microsoft.Compute/disks" }] }).2
      1 { resource_type := "Microsoft.Compute/disks" } rfl
    |>.2 rfl⟩

/-- C8: status totality: every outcome of validatePlan carries one of the
four enumerated statuses (the result type admits no bare exception), and a
failed quota fetch yields the explicit unavailable projection rather than
fabricated lines. -/
theorem outcome_status_totality :
    (∀ (env : LookupEnv) (p : Plan) (o : ValidationOutcome),
      o ∈ validatePlan env p →
        o.status = Status.available ∨ o.status = Status.restricted ∨
        o.status = Status.unknown ∨ o.status = Status.error) ∧
    (∀ (requested : String → ℚ) (e : String),
      projectQuotaResult requested (Except.error e)
        = QuotaProjection.unavailable) := by
  refine ⟨fun env p o _ => ?_, fun requested e => rfl⟩
  cases h : o.status
  · exact Or.inl rfl
  · exact Or.inr (Or.inl rfl)
  · exact Or.inr (Or.inr (Or.inl rfl))
  · exact Or.inr (Or.inr (Or.inr rfl))

/-- Witness for outcome_status_totality at a concrete plan and environment. -/
theorem outcome_status_totality_witness :
    (classify { resource_type := "Microsoft.Compute/disks", sku := some "Premium_LRS" }
        (Except.ok [])).status = Status.available ∨
    (classify { resource_type := "Microsoft.Compute/disks", sku := some "Premium_LRS" }
        (Except.ok [])).status = Status.restricted ∨
    (classify { resource_type := "Microsoft.Compute/disks", sku := some "Premium_LRS" }
        (Except.ok [])).status = Status.unknown ∨
    (classify { resource_type := "Microsoft.Compute/disks", sku := some "Premium_LRS" }
        (Except.ok [])).status = Status.error :=
  outcome_status_totality.1 (fun _ _ => Except.ok [])
    { region := "westeurope",
      resources := [{ resource_type := "Microsoft.Compute/disks", sku := some "Premium_LRS" }] }
    (classify { resource_type := "Microsoft.Compute/disks", sku := some "Premium_LRS" }
      (Except.ok []))
    (by simp [validatePlan])

lemma applyPatch_invariant (a : PlanResource) (patch : ResourcePatch)
    (ha : resourceInvariant a)
    (ht : ∀ t, patch.resource_type = some t → t ≠ "")
    (hq : ∀ q, patch.quantity = some q → 1 ≤ q) :
    resourceInvariant (applyPatch a patch) := by
  obtain ⟨ha1, ha2⟩ := ha
  constructor
  · cases hpt : patch.resource_type with
    | none => simpa [applyPatch, hpt] using ha1
    | some t => simpa [applyPatch, hpt] using ht t hpt
  · intro q hqq
    cases hpq : patch.quantity with
    | none =>
      simp only [applyPatch, hpq] at hqq
      exact ha2 q hqq
    | some q0 =>
      simp only [applyPatch, hpq, Option.some.injEq] at hqq
      exact hqq ▸ hq q0 hpq

lemma mem_updateResource (plan : Plan) (idx : Nat) (patch : ResourcePatch)
    (r : PlanResource) (h : r ∈ (updateResource plan idx patch).resources) :
    r ∈ plan.resources ∨ ∃ a ∈ plan.resources, r = applyPatch a patch := by
  simp only [updateResource, List.mapIdx_eq_enum_map, List.mem_map] at h
  obtain ⟨⟨i, a⟩, hmem, heq⟩ := h
  have ha : a ∈ plan.resources := by
    rw [List.mem_enum_iff_getElem?] at hmem
    exact List.getElem?_mem hmem
  simp only [Function.uncurry] at heq
  by_cases hi : i = idx
  · simp only [hi, if_pos rfl] at heq
    exact Or.inr ⟨a, ha, heq.symm⟩
  · simp only [if_neg hi] at heq
    exact Or.inl (heq ▸ ha)

/-- C9 counterexample: editing the quantity of a well-formed plan entry
through updateResource with the value 0 (which the quantity input handler
passes verbatim as Number of the typed text, the min attribute being only
advisory) yields a resource whose quantity is 0, violating the stated
invariant quantity at least 1. -/
theorem update_quantity_zero_counterexample :
    ((updateResource
        (addResource { region := "westeurope", resources := [] }
          "Microsoft.Compute/disks" "" "Premium_LRS")
        0 { quantity := some 0 }).resources.map (fun r => r.quantity))
      = [some 0] ∧
    ¬ (∀ r ∈ (updateResource
        (addResource { region := "westeurope", resources := [] }
          "Microsoft.Compute/disks" "" "Premium_LRS")
        0 { quantity := some 0 }).resources, resourceInvariant r) := by
  refine ⟨by decide, fun h => ?_⟩
  have hx : ∃ r ∈ (updateResource
      (addResource { region := "westeurope", resources := [] }
        "Microsoft.Compute/disks" "" "Premium_LRS")
      0 { quantity := some 0 }).resources, r.quantity = some 0 := by
    decide
  obtain ⟨r, hr, hq0⟩ := hx
  have hq := (h r hr).2 0 hq0
  exact absurd hq (by decide)

/-- C9 amended: resources appended by addResource always satisfy the
invariant (non-empty resource_type, quantity 1); updateResource applies its
patch unchecked, so it preserves the invariant exactly when the patch itself
respects it: a patched quantity must be at least 1 and a patched
resource_type non-empty.  The quantity text input can hand updateResource a
value below 1, so the unconditional claim fails. -/
theorem plan_edit_invariant_amended :
    (∀ (plan : Plan) (newType customType newSku : String),
      (∀ r ∈ plan.resources, resourceInvariant r) →
      ∀ r ∈ (addResource plan newType customType newSku).resources,
        resourceInvariant r) ∧
    (∀ (plan : Plan) (idx : Nat) (patch : ResourcePatch),
      (∀ r ∈ plan.resources, resourceInvariant r) →
      (∀ t, patch.resource_type = some t → t ≠ "") →
      (∀ q, patch.quantity = some q → 1 ≤ q) →
      ∀ r ∈ (updateResource plan idx patch).resources,
        resourceInvariant r) := by
  constructor
  · intro plan newType customType newSku hinv r hr
    by_cases hty : (if newType = "custom" then customType.trim else newType) = ""
    · rw [addResource, if_pos hty] at hr
      exact hinv r hr
    · rw [addResource, if_neg hty] at hr
      rcases List.mem_append.mp hr with hr | hr
      · exact hinv r hr
      · rcases List.mem_singleton.mp hr with rfl
        exact ⟨hty, fun q hq => by
          simp only [Option.some.injEq] at hq
          omega⟩
  · intro plan idx patch hinv ht hq r hr
    rcases mem_updateResource plan idx patch r hr with hr | ⟨a, ha, rfl⟩
    · exact hinv r hr
    · exact applyPatch_invariant a patch (hinv a ha) ht hq

/-- Witness for plan_edit_invariant_amended: a concrete add followed by a
concrete well-formed quantity edit keeps the invariant. -/
theorem plan_edit_invariant_amended_witness :
    (∀ r ∈ (addResource { region := "westeurope", resources := [] }
        "Microsoft.Compute/disks" "" "Premium_LRS").resources,
      resourceInvariant r) ∧
    (∀ r ∈ (updateResource
        (addResource { region := "westeurope", resources := [] }
          "Microsoft.Compute/disks" "" "Premium_LRS")
        0 { quantity := some 5 }).resources,
      resourceInvariant r) :=
  ⟨plan_edit_invariant_amended.1
      { region := "westeurope", resources := [] }
      "Microsoft.Compute/disks" "" "Premium_LRS" (by simp),
   plan_edit_invariant_amended.2
      (addResource { region := "westeurope", resources := [] }
        "Microsoft.Compute/disks" "" "Premium_LRS")
      0 { quantity := some 5 }
      (plan_edit_invariant_amended.1
        { region := "westeurope", resources := [] }
        "Microsoft.Compute/disks" "" "Premium_LRS" (by simp))
      (fun t h => nomatch h)
      (fun q h => by
        simp only [Option.some.injEq] at h
        omega)⟩

/-- C10: when a listing fetch succeeds with a non-empty list and no value is
currently selected, both selectors store the list and fire onChange with the
first element name; on a fetch failure the SKU selector falls back to the
empty item list without firing onChange. -/
theorem selector_auto_select_first (value : Option String) :
    (∀ (it : SkuItem) (rest : List SkuItem), optStrFalsy value = true →
      genericSkuOnFetch value (Except.ok (some (it :: rest)))
        = (it :: rest, some it.name)) ∧
    (∀ e : Unit, genericSkuOnFetch value (Except.error e) = ([], none)) ∧
    (∀ (prev : List VmSize) (s : VmSize) (rest : List VmSize),
      optStrFalsy value = true →
      vmSizeOnFetch value prev (Except.ok (s :: rest))
        = (s :: rest, some s.name)) := by
  refine ⟨?_, fun _ => rfl, ?_⟩
  · intro it rest hf
    simp [genericSkuOnFetch, hf]
  · intro prev s rest hf
    simp [vmSizeOnFetch, hf]

/-- Witness for selector_auto_select_first: with no current value, a fetched
two-item SKU list auto-selects the first item, a failed fetch resets the
items, and a fetched VM size list auto-selects the first size. -/
theorem selector_auto_select_first_witness :
    (genericSkuOnFetch none
        (Except.ok (some [{ name := "Premium_LRS" }, { name := "Standard_LRS" }]))
      = ([{ name := "Premium_LRS" }, { name := "Standard_LRS" }],
         some "Premium_LRS")) ∧
    (genericSkuOnFetch none (Except.error ()) = ([], none)) ∧
    (vmSizeOnFetch none []
        (Except.ok [{ name := "Standard_D4s_v5", number_of_cores := 4,
                      memory_in_mb := 16384 }])
      = ([{ name := "Standard_D4s_v5", number_of_cores := 4,
            memory_in_mb := 16384 }], some "Standard_D4s_v5")) :=
  ⟨(selector_auto_select_first none).1 { name := "Premium_LRS" }
      [{ name := "Standard_LRS" }] rfl,
   (selector_auto_select_first none).2.1 (),
   (selector_auto_select_first none).2.2 []
      { name := "Standard_D4s_v5", number_of_cores := 4, memory_in_mb := 16384 }
      [] rfl⟩

end ACV
